import Mathlib

/-!
Verification of the llm_fallback fallback-routing library.

The development shallowly embeds the TypeScript sources:
* `src/client.ts`   — the fallback router `LLMClient` (`generate`, `addProvider`,
  `setProviders`);
* `src/exceptions.ts` — `AllProvidersFailedError`;
* `src/providers.ts`  — the four provider adapters (HuggingFace, OpenRouter,
  NVIDIA, Gemini).

Remote SDK calls are modelled as an injected `backend` function from the built
request to a success payload or a thrown error; the list of requests handed to
the backend is returned alongside the result so that "the network was not
reached" is expressible as an empty request list.  JavaScript truthiness in
option defaulting (`x || d`, where `0` and `""` are falsy, versus `x ?? d`) is
modelled by the `jsOr*` and `jsCoalesce*` helpers.
-/

namespace LLMFallback

/-- Per-call options `{ model?, temperature?, max_tokens? }` of the TS sources. -/
structure GenOptions where
  model : Option String := none
  temperature : Option Rat := none
  max_tokens : Option Nat := none

/-- JavaScript `x || d` on an optional number: `0` is falsy and falls back to `d`. -/
def jsOrRat (x : Option Rat) (d : Rat) : Rat :=
  match x with
  | some v => if v = 0 then d else v
  | none => d

/-- JavaScript `x || d` on an optional integer: `0` is falsy and falls back to `d`. -/
def jsOrNat (x : Option Nat) (d : Nat) : Nat :=
  match x with
  | some v => if v = 0 then d else v
  | none => d

/-- JavaScript `x || d` on an optional string: `""` is falsy and falls back to `d`. -/
def jsOrStr (x : Option String) (d : String) : String :=
  match x with
  | some v => if v = "" then d else v
  | none => d

/-- JavaScript `x ?? d` on an optional number: only absence falls back to `d`. -/
def jsCoalesceRat (x : Option Rat) (d : Rat) : Rat := x.getD d

/-- JavaScript `x ?? d` on an optional integer: only absence falls back to `d`. -/
def jsCoalesceNat (x : Option Nat) (d : Nat) : Nat := x.getD d

/-- The whitespace class of the JavaScript regexes and of `String.prototype.trim`
(ASCII whitespace plus no-break space). -/
def isJsWhitespace (c : Char) : Bool :=
  c = ' ' || c = '\t' || c = '\n' || c = '\r' || c = '\x0b' || c = '\x0c' || c = ' '

/-- JavaScript `s.trim()`: strip leading and trailing whitespace. -/
def jsTrim (s : String) : String :=
  String.mk (((s.data.dropWhile isJsWhitespace).reverse.dropWhile isJsWhitespace).reverse)

/-- One left-to-right pass of `text.replace(/<[^>]*>/g, "")` (providers.ts line 39).
The flag records whether the scan is inside a candidate tag; the buffer holds the
characters read since the opening angle bracket, emitted literally when the input
ends with the tag still open (the regex then has no match there). -/
def removeTagsGo : Bool → List Char → List Char → List Char
  | false, _, [] => []
  | false, buf, c :: rest =>
    if c = '<' then removeTagsGo true [] rest
    else c :: removeTagsGo false buf rest
  | true, buf, [] => '<' :: buf.reverse
  | true, buf, c :: rest =>
    if c = '>' then removeTagsGo false [] rest
    else removeTagsGo true (c :: buf) rest

/-- `text.replace(/<[^>]*>/g, "")` of providers.ts line 39. -/
def removeTags (cs : List Char) : List Char := removeTagsGo false [] cs

/-- One pass of `text.replace(/\s+/g, " ")` (providers.ts line 40): the flag
records whether the previous character was whitespace already replaced. -/
def normSpaceGo : Bool → List Char → List Char
  | _, [] => []
  | inRun, c :: rest =>
    if isJsWhitespace c then
      if inRun then normSpaceGo true rest
      else ' ' :: normSpaceGo true rest
    else c :: normSpaceGo false rest

/-- `text.replace(/\s+/g, " ")` of providers.ts line 40. -/
def normSpace (cs : List Char) : List Char := normSpaceGo false cs

/-- The response cleaning of `HuggingFaceProvider.generate` (providers.ts
lines 39 to 41): remove XML tags, collapse whitespace runs, trim. -/
def cleanHFText (s : String) : String :=
  jsTrim (String.mk (normSpace (removeTags s.data)))

/-- `AllProvidersFailedError` of src/exceptions.ts: an `Error` subclass whose
`name` field is the fixed class name and whose message is the constructor
argument. -/
structure AllProvidersFailedError where
  message : String
deriving DecidableEq

/-- The `name` property set by the constructor in src/exceptions.ts line 4. -/
def AllProvidersFailedError.name (_ : AllProvidersFailedError) : String :=
  "AllProvidersFailedError"

/-- A provider as the router sees it (the `LLMProvider` contract of
providers.ts lines 6 to 9): an availability flag and a generate behaviour that
either returns text or throws an error message.  Behaviour is deterministic in
the prompt and options, matching the determinism assumption of the spec. -/
structure ProviderBehavior where
  isAvailable : Bool
  generate : String → GenOptions → Except String String

/-- Observable event of one loop iteration of `LLMClient.generate`
(client.ts lines 18 to 29), tagged with the index of the provider concerned:
skipped on `isAvailable` false, succeeded on a returned result, failed on a
thrown error. -/
inductive ProviderEvent where
  | skipped (idx : Nat)
  | succeeded (idx : Nat) (result : String)
  | failed (idx : Nat) (msg : String)
deriving DecidableEq

/-- The provider index an event concerns. -/
def eventIdx : ProviderEvent → Nat
  | .skipped i => i
  | .succeeded i _ => i
  | .failed i _ => i

/-- The loop of `LLMClient.generate` (client.ts lines 18 to 31) over the
remaining providers, with `idx` the index of the head provider in the full
list.  Returns the result together with the trace of per-provider events, in
iteration order. -/
def generateFrom :
    List ProviderBehavior → Nat → String → GenOptions →
    Except AllProvidersFailedError String × List ProviderEvent
  | [], _, _, _ => (Except.error ⟨"All LLM providers failed"⟩, [])
  | p :: rest, idx, prompt, opts =>
    if p.isAvailable then
      match p.generate prompt opts with
      | Except.ok r => (Except.ok r, [ProviderEvent.succeeded idx r])
      | Except.error m =>
        let next := generateFrom rest (idx + 1) prompt opts
        (next.1, ProviderEvent.failed idx m :: next.2)
    else
      let next := generateFrom rest (idx + 1) prompt opts
      (next.1, ProviderEvent.skipped idx :: next.2)

/-- `LLMClient.generate` (client.ts lines 17 to 32): iterate the ordered
provider list from the start, returning the first success or the aggregate
failure, together with the event trace. -/
def LLMClient.generate (providers : List ProviderBehavior) (prompt : String)
    (opts : GenOptions) :
    Except AllProvidersFailedError String × List ProviderEvent :=
  generateFrom providers 0 prompt opts

/-- `LLMClient.addProvider` (client.ts lines 34 to 36): push onto the end of
the provider list. -/
def LLMClient.addProvider (providers : List ProviderBehavior)
    (p : ProviderBehavior) : List ProviderBehavior :=
  providers ++ [p]

/-- `LLMClient.setProviders` (client.ts lines 38 to 40): wholesale replacement
of the provider list. -/
def LLMClient.setProviders (_old new : List ProviderBehavior) :
    List ProviderBehavior :=
  new

/-- A provider that contributes no success to the fallback scan: it is either
unavailable or its generate call throws. -/
def genFails (p : ProviderBehavior) (prompt : String) (opts : GenOptions) : Bool :=
  !p.isAvailable ||
    (match p.generate prompt opts with
     | Except.error _ => true
     | Except.ok _ => false)

/-- The event the router records for a provider it considers without stopping
at it. -/
def consideredEvent (p : ProviderBehavior) (idx : Nat) (prompt : String)
    (opts : GenOptions) : ProviderEvent :=
  if p.isAvailable then
    match p.generate prompt opts with
    | Except.ok r => ProviderEvent.succeeded idx r
    | Except.error m => ProviderEvent.failed idx m
  else ProviderEvent.skipped idx

/-- The trace left by a run of the loop that considers every listed provider. -/
def failTrace : List ProviderBehavior → Nat → String → GenOptions → List ProviderEvent
  | [], _, _, _ => []
  | p :: rest, idx, prompt, opts =>
    consideredEvent p idx prompt opts :: failTrace rest (idx + 1) prompt opts

/-! ## Provider adapters (src/providers.ts)

Each adapter is embedded as a function of the stored credential, an injected
`backend` modelling the vendor SDK call, the prompt and the options.  It
returns the outcome together with the list of requests handed to the backend,
so an empty request list witnesses that no network call was made. -/

/-- The request `HuggingFaceProvider.generate` hands to
`client.textGeneration` (providers.ts lines 26 to 35). -/
structure HFRequest where
  model : String
  inputs : String
  max_new_tokens : Nat
  temperature : Rat
  top_p : Rat
  return_full_text : Bool
deriving DecidableEq

/-- The `textGeneration` response: `generated_text`, possibly absent. -/
structure HFResponse where
  generated_text : Option String
deriving DecidableEq

/-- Default model of `HuggingFaceProvider` (providers.ts line 14). -/
def HuggingFaceProvider.modelName : String := "mistralai/Mistral-Nemo-Instruct-2407"

/-- `HuggingFaceProvider.isAvailable` (providers.ts lines 50 to 56): the key is
a string (always true here) and non-empty. -/
def HuggingFaceProvider.isAvailable (apiKey : String) : Bool :=
  decide (0 < apiKey.length)

/-- The request built at providers.ts lines 27 to 34; `||` defaulting makes
`0` and `""` fall back to the defaults. -/
def HuggingFaceProvider.buildRequest (prompt : String) (opts : GenOptions) : HFRequest :=
  { model := jsOrStr opts.model HuggingFaceProvider.modelName
    inputs := prompt
    max_new_tokens := jsOrNat opts.max_tokens 100
    temperature := jsOrRat opts.temperature 0.7
    top_p := 0.95
    return_full_text := false }

/-- `HuggingFaceProvider.generate` (providers.ts lines 22 to 48). -/
def HuggingFaceProvider.generate (apiKey : String)
    (backend : HFRequest → Except String HFResponse)
    (prompt : String) (opts : GenOptions) :
    Except String String × List HFRequest :=
  if !HuggingFaceProvider.isAvailable apiKey then
    (Except.error "HuggingFace API key not set", [])
  else
    match backend (HuggingFaceProvider.buildRequest prompt opts) with
    | Except.ok resp =>
      let text := cleanHFText (resp.generated_text.getD "")
      (Except.ok (if 0 < text.length then text else "No response generated"),
       [HuggingFaceProvider.buildRequest prompt opts])
    | Except.error e =>
      (Except.error ("HuggingFace API error: " ++ e),
       [HuggingFaceProvider.buildRequest prompt opts])

/-- The chat-completion request `OpenRouterProvider.generate` builds
(providers.ts lines 86 to 92); the single user message is flattened to its
content. -/
structure ORRequest where
  model : String
  content : String
  temperature : Rat
  max_tokens : Nat
deriving DecidableEq

/-- The completion response: `choices?.[0]?.message?.content`, `none` when any
link of that chain is missing. -/
structure ORResponse where
  content : Option String
deriving DecidableEq

/-- A thrown SDK error as inspected by the catch block (providers.ts
lines 107 to 126): `error.response?.status` and `error.message`. -/
structure ORFailure where
  status : Option Nat
  message : String
deriving DecidableEq

/-- Default model of `OpenRouterProvider` (providers.ts line 61). -/
def OpenRouterProvider.modelName : String := "mistralai/mistral-7b-instruct:free"

/-- `OpenRouterProvider.isAvailable` (providers.ts lines 130 to 139): key
non-empty and not the sentinel "invalid-key". -/
def OpenRouterProvider.isAvailable (apiKey : String) : Bool :=
  decide (0 < apiKey.length) && (apiKey != "invalid-key")

/-- The request built at providers.ts lines 87 to 92; note `??` (not `||`)
defaulting for temperature and max_tokens. -/
def OpenRouterProvider.buildRequest (prompt : String) (opts : GenOptions) : ORRequest :=
  { model := jsOrStr opts.model OpenRouterProvider.modelName
    content := prompt
    temperature := jsCoalesceRat opts.temperature 0.7
    max_tokens := jsCoalesceNat opts.max_tokens 1000 }

/-- The try block of `OpenRouterProvider.generate` (providers.ts lines 85 to
105): absent or empty (falsy) content throws "No response content received",
otherwise the trimmed content is returned.  The thrown error has no `response`
field, hence status `none`. -/
def OpenRouterProvider.tryBody (backend : ORRequest → Except ORFailure ORResponse)
    (req : ORRequest) : Except ORFailure String :=
  match backend req with
  | Except.ok resp =>
    match resp.content with
    | none => Except.error { status := none, message := "No response content received" }
    | some c =>
      if c = "" then
        Except.error { status := none, message := "No response content received" }
      else Except.ok (jsTrim c)
  | Except.error e => Except.error e

/-- The catch block of `OpenRouterProvider.generate` (providers.ts lines 107
to 126): 401 and 429 get dedicated messages, anything else the generic
"OpenRouter error: " wrapper around `error.message || "Unknown error"`. -/
def OpenRouterProvider.catchBody (e : ORFailure) : String :=
  if e.status = some 401 then "OpenRouter authentication failed: Invalid API key"
  else if e.status = some 429 then "OpenRouter rate limit exceeded"
  else "OpenRouter error: " ++ jsOrStr (some e.message) "Unknown error"

/-- `OpenRouterProvider.generate` (providers.ts lines 80 to 128). -/
def OpenRouterProvider.generate (apiKey : String)
    (backend : ORRequest → Except ORFailure ORResponse)
    (prompt : String) (opts : GenOptions) :
    Except String String × List ORRequest :=
  if !OpenRouterProvider.isAvailable apiKey then
    (Except.error "OpenRouter API key not set", [])
  else
    match OpenRouterProvider.tryBody backend (OpenRouterProvider.buildRequest prompt opts) with
    | Except.ok r => (Except.ok r, [OpenRouterProvider.buildRequest prompt opts])
    | Except.error e =>
      (Except.error (OpenRouterProvider.catchBody e),
       [OpenRouterProvider.buildRequest prompt opts])

/-- The chat-completion request `NvidiaProvider.generate` builds
(providers.ts lines 155 to 162). -/
structure NVRequest where
  model : String
  content : String
  temperature : Rat
  max_tokens : Nat
  top_p : Rat
  stream : Bool
deriving DecidableEq

/-- The completion response: `choices[0]?.message?.content`, `none` when the
chain is missing. -/
structure NVResponse where
  content : Option String
deriving DecidableEq

/-- Default model of `NvidiaProvider` (providers.ts line 144). -/
def NvidiaProvider.modelName : String := "meta/llama-3.3-70b-instruct"

/-- `NvidiaProvider.isAvailable` (providers.ts lines 172 to 178). -/
def NvidiaProvider.isAvailable (apiKey : String) : Bool :=
  decide (0 < apiKey.length)

/-- The request built at providers.ts lines 156 to 161; `||` defaulting. -/
def NvidiaProvider.buildRequest (prompt : String) (opts : GenOptions) : NVRequest :=
  { model := jsOrStr opts.model NvidiaProvider.modelName
    content := prompt
    temperature := jsOrRat opts.temperature 0.7
    max_tokens := jsOrNat opts.max_tokens 1000
    top_p := 0.7
    stream := false }

/-- `NvidiaProvider.generate` (providers.ts lines 151 to 170): the trimmed
content, with absent or empty (falsy) content replaced by the sentinel. -/
def NvidiaProvider.generate (apiKey : String)
    (backend : NVRequest → Except String NVResponse)
    (prompt : String) (opts : GenOptions) :
    Except String String × List NVRequest :=
  if !NvidiaProvider.isAvailable apiKey then
    (Except.error "NVIDIA API key not set", [])
  else
    match backend (NvidiaProvider.buildRequest prompt opts) with
    | Except.ok resp =>
      (Except.ok (jsOrStr (resp.content.map jsTrim) "No response generated"),
       [NvidiaProvider.buildRequest prompt opts])
    | Except.error e =>
      (Except.error ("NVIDIA API error: " ++ e),
       [NvidiaProvider.buildRequest prompt opts])

/-- The generation request `GeminiProvider.generate` builds (providers.ts
lines 193 to 206): resolved model plus the generation config. -/
structure GemRequest where
  model : String
  text : String
  temperature : Rat
  maxOutputTokens : Nat
  topP : Rat
  topK : Nat
deriving DecidableEq

/-- The response: `result.response?.text()`, `none` when the chain is missing. -/
structure GemResponse where
  content : Option String
deriving DecidableEq

/-- Default model of `GeminiProvider` (providers.ts line 183). -/
def GeminiProvider.modelName : String := "gemini-1.5-flash"

/-- `GeminiProvider.isAvailable` (providers.ts lines 216 to 222). -/
def GeminiProvider.isAvailable (apiKey : String) : Bool :=
  decide (0 < apiKey.length)

/-- The request built at providers.ts lines 193 to 205; `||` defaulting. -/
def GeminiProvider.buildRequest (prompt : String) (opts : GenOptions) : GemRequest :=
  { model := jsOrStr opts.model GeminiProvider.modelName
    text := prompt
    temperature := jsOrRat opts.temperature 0.7
    maxOutputTokens := jsOrNat opts.max_tokens 1000
    topP := 0.95
    topK := 64 }

/-- `GeminiProvider.generate` (providers.ts lines 190 to 214): the trimmed
response text, with absent or empty (falsy) text replaced by the sentinel. -/
def GeminiProvider.generate (apiKey : String)
    (backend : GemRequest → Except String GemResponse)
    (prompt : String) (opts : GenOptions) :
    Except String String × List GemRequest :=
  if !GeminiProvider.isAvailable apiKey then
    (Except.error "Gemini API key not set", [])
  else
    match backend (GeminiProvider.buildRequest prompt opts) with
    | Except.ok resp =>
      (Except.ok (jsOrStr (resp.content.map jsTrim) "No response generated"),
       [GeminiProvider.buildRequest prompt opts])
    | Except.error e =>
      (Except.error ("Gemini API error: " ++ e),
       [GeminiProvider.buildRequest prompt opts])

/-! ## Concrete witnesses: providers and backend stubs -/

/-- An available provider that always succeeds with "alpha". -/
def okProviderA : ProviderBehavior := ⟨true, fun _ _ => Except.ok "alpha"⟩

/-- An available provider that always succeeds with "beta". -/
def okProviderB : ProviderBehavior := ⟨true, fun _ _ => Except.ok "beta"⟩

/-- An available provider whose generate always throws "boom". -/
def failingProvider : ProviderBehavior := ⟨true, fun _ _ => Except.error "boom"⟩

/-- An unavailable provider (its generate would succeed, but is never reached). -/
def unavailProvider : ProviderBehavior := ⟨false, fun _ _ => Except.ok "ghost"⟩

/-- A HuggingFace backend stub whose call always fails in transport. -/
def hfStub : HFRequest → Except String HFResponse := fun _ => Except.error "transport"

/-- An OpenRouter backend stub whose call always fails in transport. -/
def orStub : ORRequest → Except ORFailure ORResponse :=
  fun _ => Except.error { status := none, message := "transport" }

/-- An NVIDIA backend stub whose call always fails in transport. -/
def nvStub : NVRequest → Except String NVResponse := fun _ => Except.error "transport"

/-- A Gemini backend stub whose call always fails in transport. -/
def gmStub : GemRequest → Except String GemResponse := fun _ => Except.error "transport"

/-- A HuggingFace backend returning a successful response with empty text. -/
def hfEmptyBackend : HFRequest → Except String HFResponse :=
  fun _ => Except.ok { generated_text := some "" }

/-- An OpenRouter backend returning a successful completion with empty content. -/
def orEmptyBackend : ORRequest → Except ORFailure ORResponse :=
  fun _ => Except.ok { content := some "" }

/-- An OpenRouter backend returning a successful completion with blank content. -/
def orBlankBackend : ORRequest → Except ORFailure ORResponse :=
  fun _ => Except.ok { content := some " " }

/-- An NVIDIA backend returning a successful completion with empty content. -/
def nvEmptyBackend : NVRequest → Except String NVResponse :=
  fun _ => Except.ok { content := some "" }

/-- A Gemini backend returning a successful response with empty text. -/
def gmEmptyBackend : GemRequest → Except String GemResponse :=
  fun _ => Except.ok { content := some "" }

/-- An OpenRouter backend whose call fails with HTTP status 401. -/
def or401Backend : ORRequest → Except ORFailure ORResponse :=
  fun _ => Except.error { status := some 401, message := "auth fail" }

/-- An OpenRouter backend whose call fails with HTTP status 429. -/
def or429Backend : ORRequest → Except ORFailure ORResponse :=
  fun _ => Except.error { status := some 429, message := "too many" }

/-! ## Helper lemmas about the router loop -/

/-- A considered event carries the index it was recorded at. -/
lemma eventIdx_consideredEvent (p : ProviderBehavior) (idx : Nat) (prompt : String)
    (opts : GenOptions) : eventIdx (consideredEvent p idx prompt opts) = idx := by
  unfold consideredEvent
  cases hav : p.isAvailable
  · simp [eventIdx]
  · cases hg : p.generate prompt opts <;> simp [eventIdx]

/-- When every listed provider is unavailable or fails, the loop returns the
aggregate error and its trace considers every provider. -/
lemma generateFrom_allFail (prompt : String) (opts : GenOptions) :
    ∀ (ps : List ProviderBehavior) (idx : Nat),
      (∀ q ∈ ps, genFails q prompt opts = true) →
      generateFrom ps idx prompt opts =
        (Except.error ⟨"All LLM providers failed"⟩, failTrace ps idx prompt opts) := by
  intro ps
  induction ps with
  | nil => intro idx _; rfl
  | cons p rest ih =>
    intro idx h
    have hp := h p (List.mem_cons_self p rest)
    have ihr := ih (idx + 1) (fun q hq => h q (List.mem_cons_of_mem p hq))
    cases hav : p.isAvailable
    · simp [generateFrom, failTrace, consideredEvent, hav, ihr]
    · cases hg : p.generate prompt opts with
      | ok r => exact absurd hp (by simp [genFails, hav, hg])
      | error m => simp [generateFrom, failTrace, consideredEvent, hav, hg, ihr]

/-- The trace of a fully considered list covers exactly the index range of the
list, in order. -/
lemma failTrace_map_eventIdx (prompt : String) (opts : GenOptions) :
    ∀ (ps : List ProviderBehavior) (idx : Nat),
      (failTrace ps idx prompt opts).map eventIdx = List.range' idx ps.length := by
  intro ps
  induction ps with
  | nil => intro idx; rfl
  | cons p rest ih =>
    intro idx
    simp only [failTrace, List.map_cons, eventIdx_consideredEvent, ih, List.length_cons]
    rfl

/-- When every listed provider is unavailable or fails, no event of the
considered trace is a success. -/
lemma failTrace_no_success (prompt : String) (opts : GenOptions) :
    ∀ (ps : List ProviderBehavior) (idx : Nat),
      (∀ q ∈ ps, genFails q prompt opts = true) →
      ∀ e ∈ failTrace ps idx prompt opts, ∀ j s, e ≠ ProviderEvent.succeeded j s := by
  intro ps
  induction ps with
  | nil => intro idx _ e he; simp [failTrace] at he
  | cons p rest ih =>
    intro idx h e he j s
    simp only [failTrace, List.mem_cons] at he
    rcases he with rfl | hmem
    · have hp := h p (List.mem_cons_self p rest)
      unfold consideredEvent
      cases hav : p.isAvailable
      · simp
      · cases hg : p.generate prompt opts with
        | ok r => exact absurd hp (by simp [genFails, hav, hg])
        | error m => simp
    · exact ih (idx + 1) (fun q hq => h q (List.mem_cons_of_mem p hq)) e hmem j s

/-- A run that succeeds on a list succeeds identically, with the same trace,
on any extension of that list. -/
lemma generateFrom_append_ok (prompt : String) (opts : GenOptions)
    (qs : List ProviderBehavior) :
    ∀ (ps : List ProviderBehavior) (idx : Nat) (r : String) (tr : List ProviderEvent),
      generateFrom ps idx prompt opts = (Except.ok r, tr) →
      generateFrom (ps ++ qs) idx prompt opts = (Except.ok r, tr) := by
  intro ps
  induction ps with
  | nil =>
    intro idx r tr h
    exact absurd h (by simp [generateFrom])
  | cons p rest ih =>
    intro idx r tr h
    rw [List.cons_append]
    cases hav : p.isAvailable
    · simp only [generateFrom, hav, Bool.false_eq_true, if_false] at h ⊢
      rw [Prod.mk.injEq] at h
      obtain ⟨h1, h2⟩ := h
      have hpair : generateFrom rest (idx + 1) prompt opts =
          (Except.ok r, (generateFrom rest (idx + 1) prompt opts).2) := by
        rw [← h1]
      rw [ih (idx + 1) r ((generateFrom rest (idx + 1) prompt opts).2) hpair, ← h2]
    · cases hg : p.generate prompt opts with
      | ok s =>
        simp only [generateFrom, hav, if_true, hg] at h ⊢
        exact h
      | error m =>
        simp only [generateFrom, hav, if_true, hg] at h ⊢
        rw [Prod.mk.injEq] at h
        obtain ⟨h1, h2⟩ := h
        have hpair : generateFrom rest (idx + 1) prompt opts =
            (Except.ok r, (generateFrom rest (idx + 1) prompt opts).2) := by
          rw [← h1]
        rw [ih (idx + 1) r ((generateFrom rest (idx + 1) prompt opts).2) hpair, ← h2]

/-- A run that exhausts a list continues, on an extension of that list, with
the extension, prefixing the trace already produced. -/
lemma generateFrom_append_error (prompt : String) (opts : GenOptions)
    (qs : List ProviderBehavior) :
    ∀ (ps : List ProviderBehavior) (idx : Nat) (e : AllProvidersFailedError),
      (generateFrom ps idx prompt opts).1 = Except.error e →
      generateFrom (ps ++ qs) idx prompt opts =
        ((generateFrom qs (idx + ps.length) prompt opts).1,
         (generateFrom ps idx prompt opts).2 ++
           (generateFrom qs (idx + ps.length) prompt opts).2) := by
  intro ps
  induction ps with
  | nil =>
    intro idx e _
    simp only [List.nil_append, generateFrom, List.length_nil, Nat.add_zero]
  | cons p rest ih =>
    intro idx e h
    rw [List.cons_append]
    have hlen : idx + (p :: rest).length = (idx + 1) + rest.length := by
      simp only [List.length_cons]; omega
    rw [hlen]
    cases hav : p.isAvailable
    · simp only [generateFrom, hav, Bool.false_eq_true, if_false] at h ⊢
      rw [ih (idx + 1) e h]
      rfl
    · cases hg : p.generate prompt opts with
      | ok s => simp [generateFrom, hav, hg] at h
      | error m =>
        simp only [generateFrom, hav, if_true, hg] at h ⊢
        rw [ih (idx + 1) e h]
        rfl

/-- The events of any run concern consecutive provider indices starting at the
index of the first provider: the k-th event of the trace concerns provider
number k. -/
lemma generateFrom_trace_map (prompt : String) (opts : GenOptions) :
    ∀ (ps : List ProviderBehavior) (idx : Nat),
      ((generateFrom ps idx prompt opts).2).map eventIdx =
        List.range' idx ((generateFrom ps idx prompt opts).2).length := by
  intro ps
  induction ps with
  | nil => intro idx; rfl
  | cons p rest ih =>
    intro idx
    cases hav : p.isAvailable
    · simp only [generateFrom, hav, Bool.false_eq_true, if_false, List.map_cons,
        List.length_cons, eventIdx, ih]
      rfl
    · cases hg : p.generate prompt opts with
      | ok r => simp [generateFrom, hav, hg, eventIdx]
      | error m =>
        simp only [generateFrom, hav, if_true, hg, List.map_cons,
          List.length_cons, eventIdx, ih]
        rfl

/-- The fallback default of the sentinel-producing adapters is never empty. -/
lemma jsOrStr_ne_empty (x : Option String) (d : String) (hd : d ≠ "") :
    jsOrStr x d ≠ "" := by
  unfold jsOrStr
  cases x with
  | none => exact hd
  | some v =>
    by_cases hv : v = ""
    · simp [hv]; exact hd
    · simp [hv]

/-- A string whose prefix of the length of `pre` differs from `pre` is not
`pre ++ m` for any `m`. -/
lemma ne_append_of_take_ne (pre m s : String)
    (h : s.data.take pre.data.length ≠ pre.data) : s ≠ pre ++ m := by
  intro heq
  apply h
  rw [heq, String.data_append]
  exact List.take_left pre.data m.data

/-- An available HuggingFace adapter hands the backend exactly the built
request, whatever the backend then does. -/
lemma hf_requests (apiKey : String) (backend : HFRequest → Except String HFResponse)
    (prompt : String) (opts : GenOptions)
    (h : HuggingFaceProvider.isAvailable apiKey = true) :
    (HuggingFaceProvider.generate apiKey backend prompt opts).2 =
      [HuggingFaceProvider.buildRequest prompt opts] := by
  unfold HuggingFaceProvider.generate
  simp only [h, Bool.not_true, Bool.false_eq_true, if_false]
  cases hb : backend (HuggingFaceProvider.buildRequest prompt opts) <;> rfl

/-- An available OpenRouter adapter hands the backend exactly the built
request, whatever the backend then does. -/
lemma or_requests (apiKey : String) (backend : ORRequest → Except ORFailure ORResponse)
    (prompt : String) (opts : GenOptions)
    (h : OpenRouterProvider.isAvailable apiKey = true) :
    (OpenRouterProvider.generate apiKey backend prompt opts).2 =
      [OpenRouterProvider.buildRequest prompt opts] := by
  unfold OpenRouterProvider.generate
  simp only [h, Bool.not_true, Bool.false_eq_true, if_false]
  cases hb : OpenRouterProvider.tryBody backend (OpenRouterProvider.buildRequest prompt opts) <;> rfl

/-- An available NVIDIA adapter hands the backend exactly the built request,
whatever the backend then does. -/
lemma nv_requests (apiKey : String) (backend : NVRequest → Except String NVResponse)
    (prompt : String) (opts : GenOptions)
    (h : NvidiaProvider.isAvailable apiKey = true) :
    (NvidiaProvider.generate apiKey backend prompt opts).2 =
      [NvidiaProvider.buildRequest prompt opts] := by
  unfold NvidiaProvider.generate
  simp only [h, Bool.not_true, Bool.false_eq_true, if_false]
  cases hb : backend (NvidiaProvider.buildRequest prompt opts) <;> rfl

/-- An available Gemini adapter hands the backend exactly the built request,
whatever the backend then does. -/
lemma gm_requests (apiKey : String) (backend : GemRequest → Except String GemResponse)
    (prompt : String) (opts : GenOptions)
    (h : GeminiProvider.isAvailable apiKey = true) :
    (GeminiProvider.generate apiKey backend prompt opts).2 =
      [GeminiProvider.buildRequest prompt opts] := by
  unfold GeminiProvider.generate
  simp only [h, Bool.not_true, Bool.false_eq_true, if_false]
  cases hb : backend (GeminiProvider.buildRequest prompt opts) <;> rfl

/-! ## Claim theorems -/

/-- Claim C1, counterexample: in the list [okProviderA, failingProvider,
okProviderB], provider 1 fails and provider 2 would succeed with "beta", yet
the router returns the result of provider 0, not the result of provider 2, so
the claim quantified over an arbitrary failing index is false as stated. -/
theorem earlier_success_preempts_later :
    failingProvider.isAvailable = true ∧
    failingProvider.generate "x" ⟨none, none, none⟩ = Except.error "boom" ∧
    okProviderB.isAvailable = true ∧
    okProviderB.generate "x" ⟨none, none, none⟩ = Except.ok "beta" ∧
    (LLMClient.generate [okProviderA, failingProvider, okProviderB] "x"
        ⟨none, none, none⟩).1 = Except.ok "alpha" ∧
    ("alpha" : String) ≠ "beta" :=
  ⟨rfl, rfl, rfl, rfl, rfl, by decide⟩

/-- Claim C1, amended: when every provider before position i+1 is unavailable
or fails and provider i+1 succeeds, the router returns the result of provider
i+1, the trace stops at its success event, and no other provider has a success
event in the run. -/
theorem generate_first_success_after_failures
    (pre post : List ProviderBehavior) (p : ProviderBehavior)
    (prompt : String) (opts : GenOptions) (r : String)
    (hpre : ∀ q ∈ pre, genFails q prompt opts = true)
    (hav : p.isAvailable = true) (hok : p.generate prompt opts = Except.ok r) :
    LLMClient.generate (pre ++ p :: post) prompt opts =
      (Except.ok r,
       failTrace pre 0 prompt opts ++ [ProviderEvent.succeeded pre.length r]) ∧
    ∀ e ∈ (LLMClient.generate (pre ++ p :: post) prompt opts).2, ∀ j s,
      e = ProviderEvent.succeeded j s → j = pre.length ∧ s = r := by
  have hfail := generateFrom_allFail prompt opts pre 0 hpre
  have herr : (generateFrom pre 0 prompt opts).1 =
      Except.error ⟨"All LLM providers failed"⟩ := by rw [hfail]
  have happ := generateFrom_append_error prompt opts (p :: post) pre 0 _ herr
  have hsingle : generateFrom (p :: post) (0 + pre.length) prompt opts =
      (Except.ok r, [ProviderEvent.succeeded (0 + pre.length) r]) := by
    simp [generateFrom, hav, hok]
  have hfirst : LLMClient.generate (pre ++ p :: post) prompt opts =
      (Except.ok r,
       failTrace pre 0 prompt opts ++ [ProviderEvent.succeeded pre.length r]) := by
    show generateFrom (pre ++ p :: post) 0 prompt opts = _
    rw [happ, hsingle, hfail]
    simp
  refine ⟨hfirst, ?_⟩
  intro e he j s heq
  rw [hfirst] at he
  subst heq
  simp only [List.mem_append, List.mem_singleton] at he
  rcases he with hin | heq2
  · exact absurd rfl (failTrace_no_success prompt opts pre 0 hpre _ hin j s)
  · injection heq2 with h1 h2
    exact ⟨h1, h2⟩

/-- Claim C1, witness of the amended theorem at a concrete list: providers 0
and 1 are skipped and fail, provider 2 serves the request, provider 3 is never
consulted. -/
theorem generate_first_success_after_failures_witness :
    LLMClient.generate [unavailProvider, failingProvider, okProviderB, okProviderA]
        "x" ⟨none, none, none⟩ =
      (Except.ok "beta",
       [ProviderEvent.skipped 0, ProviderEvent.failed 1 "boom",
        ProviderEvent.succeeded 2 "beta"]) :=
  (generate_first_success_after_failures [unavailProvider, failingProvider]
    [okProviderA] okProviderB "x" ⟨none, none, none⟩ "beta" (by decide) rfl rfl).1

/-- Claim C2, confirmed: when every provider of the list is unavailable or
fails, the router returns the aggregate failure, and its trace considers every
list entry exactly once, in index order. -/
theorem generate_all_fail_aggregate (ps : List ProviderBehavior) (prompt : String)
    (opts : GenOptions) (h : ∀ q ∈ ps, genFails q prompt opts = true) :
    (LLMClient.generate ps prompt opts).1 =
      Except.error ⟨"All LLM providers failed"⟩ ∧
    ((LLMClient.generate ps prompt opts).2).map eventIdx = List.range ps.length := by
  have hfail := generateFrom_allFail prompt opts ps 0 h
  constructor
  · show (generateFrom ps 0 prompt opts).1 = _
    rw [hfail]
  · show ((generateFrom ps 0 prompt opts).2).map eventIdx = _
    rw [hfail]
    show (failTrace ps 0 prompt opts).map eventIdx = _
    rw [failTrace_map_eventIdx, List.range_eq_range']

/-- Claim C2, witness: a two-provider list, one unavailable and one failing. -/
theorem generate_all_fail_aggregate_witness :
    (LLMClient.generate [unavailProvider, failingProvider] "x"
        ⟨none, none, none⟩).1 = Except.error ⟨"All LLM providers failed"⟩ ∧
    ((LLMClient.generate [unavailProvider, failingProvider] "x"
        ⟨none, none, none⟩).2).map eventIdx = List.range 2 :=
  generate_all_fail_aggregate [unavailProvider, failingProvider] "x"
    ⟨none, none, none⟩ (by decide)

/-- Claim C3, counterexample: the aggregate error is the same fixed value
"All LLM providers failed" for an empty list (zero providers tried) and for a
two-provider failing list, and the message contains no digit at all, so the
error carries neither the count of providers tried nor a mention of zero
attempts. -/
theorem aggregate_message_carries_no_count :
    (LLMClient.generate [] "x" ⟨none, none, none⟩).1 =
      Except.error ⟨"All LLM providers failed"⟩ ∧
    (LLMClient.generate [failingProvider, failingProvider] "x"
        ⟨none, none, none⟩).1 = Except.error ⟨"All LLM providers failed"⟩ ∧
    ∀ c ∈ "All LLM providers failed".data, c.isDigit = false :=
  ⟨rfl, rfl, by decide⟩

/-- Claim C3, amended: when the provider list is exhausted with no success the
router raises AllProvidersFailedError with the fixed message "All LLM providers
failed", independent of the number of providers tried; for the empty provider
list it fails with that same aggregate error after zero attempts. -/
theorem aggregate_message_fixed (ps : List ProviderBehavior) (prompt : String)
    (opts : GenOptions) (h : ∀ q ∈ ps, genFails q prompt opts = true) :
    (LLMClient.generate ps prompt opts).1 =
      Except.error ⟨"All LLM providers failed"⟩ ∧
    LLMClient.generate [] prompt opts =
      (Except.error ⟨"All LLM providers failed"⟩, []) := by
  refine ⟨?_, rfl⟩
  show (generateFrom ps 0 prompt opts).1 = _
  rw [generateFrom_allFail prompt opts ps 0 h]

/-- Claim C3, witness of the amended theorem at a one-provider failing list. -/
theorem aggregate_message_fixed_witness :
    (LLMClient.generate [failingProvider] "x" ⟨none, none, none⟩).1 =
      Except.error ⟨"All LLM providers failed"⟩ ∧
    LLMClient.generate [] "x" ⟨none, none, none⟩ =
      (Except.error ⟨"All LLM providers failed"⟩, []) :=
  aggregate_message_fixed [failingProvider] "x" ⟨none, none, none⟩ (by decide)

/-- Claim C5, confirmed: addProvider appends to the end of the list with no
deduplication; in any subsequent run the k-th event of the trace concerns
provider k, so the appended provider (index equal to the length of the old
list) is consulted only after every previously-present provider; and a run
that succeeded on the old list is unchanged, trace included, by the append. -/
theorem addProvider_appends_lowest_priority (ps : List ProviderBehavior)
    (q : ProviderBehavior) (prompt : String) (opts : GenOptions) :
    LLMClient.addProvider ps q = ps ++ [q] ∧
    (((LLMClient.generate (LLMClient.addProvider ps q) prompt opts).2).map eventIdx =
      List.range' 0
        ((LLMClient.generate (LLMClient.addProvider ps q) prompt opts).2).length) ∧
    ∀ r, (LLMClient.generate ps prompt opts).1 = Except.ok r →
      LLMClient.generate (LLMClient.addProvider ps q) prompt opts =
        LLMClient.generate ps prompt opts := by
  refine ⟨rfl, generateFrom_trace_map prompt opts (ps ++ [q]) 0, ?_⟩
  intro r h
  have h' : (generateFrom ps 0 prompt opts).1 = Except.ok r := h
  have hpair : generateFrom ps 0 prompt opts =
      (Except.ok r, (generateFrom ps 0 prompt opts).2) := by rw [← h']
  exact (generateFrom_append_ok prompt opts [q] ps 0 r
    ((generateFrom ps 0 prompt opts).2) hpair).trans hpair.symm

/-- Claim C5, witness: appending a provider after a succeeding one changes
neither the result nor the trace. -/
theorem addProvider_appends_lowest_priority_witness :
    LLMClient.addProvider [okProviderA] failingProvider =
      [okProviderA, failingProvider] ∧
    LLMClient.generate (LLMClient.addProvider [okProviderA] failingProvider) "x"
        ⟨none, none, none⟩ =
      LLMClient.generate [okProviderA] "x" ⟨none, none, none⟩ := by
  have h := addProvider_appends_lowest_priority [okProviderA] failingProvider "x"
    ⟨none, none, none⟩
  exact ⟨h.1, h.2.2 "alpha" rfl⟩

/-- Claim C6, confirmed: replacing the provider list by the empty list makes
generate fail immediately with the aggregate error and an empty trace, that
is, zero provider attempts. -/
theorem setProviders_empty_generate_fails (ps : List ProviderBehavior)
    (prompt : String) (opts : GenOptions) :
    LLMClient.setProviders ps [] = [] ∧
    LLMClient.generate (LLMClient.setProviders ps []) prompt opts =
      (Except.error ⟨"All LLM providers failed"⟩, []) :=
  ⟨rfl, rfl⟩

/-- Claim C4, counterexample: the OpenRouter adapter does not map an
empty-but-successful backend response to a sentinel success: an empty content
field is falsy, so it throws and the call fails; and a blank content field is
truthy and trimmed, so a successful generate returns the empty string. -/
theorem openrouter_empty_content_fails :
    (OpenRouterProvider.generate "k" orEmptyBackend "p" ⟨none, none, none⟩).1 =
      Except.error "OpenRouter error: No response content received" ∧
    (OpenRouterProvider.generate "k" orBlankBackend "p" ⟨none, none, none⟩).1 =
      Except.ok "" :=
  ⟨rfl, rfl⟩

/-- Claim C4, amended: the HuggingFace, NVIDIA and Gemini adapters map an
empty-but-successful backend response to the non-empty sentinel "No response
generated" and never return an empty string from a successful generate; the
OpenRouter adapter instead treats an absent or empty content field as a call
failure, with message "OpenRouter error: No response content received". -/
theorem empty_response_sentinel (hfKey nvKey gmKey orKey : String)
    (prompt : String) (opts : GenOptions)
    (h1 : HuggingFaceProvider.isAvailable hfKey = true)
    (h2 : NvidiaProvider.isAvailable nvKey = true)
    (h3 : GeminiProvider.isAvailable gmKey = true)
    (h4 : OpenRouterProvider.isAvailable orKey = true) :
    (HuggingFaceProvider.generate hfKey hfEmptyBackend prompt opts).1 =
      Except.ok "No response generated" ∧
    (NvidiaProvider.generate nvKey nvEmptyBackend prompt opts).1 =
      Except.ok "No response generated" ∧
    (GeminiProvider.generate gmKey gmEmptyBackend prompt opts).1 =
      Except.ok "No response generated" ∧
    (∀ (backend : HFRequest → Except String HFResponse) (s : String),
      (HuggingFaceProvider.generate hfKey backend prompt opts).1 = Except.ok s →
        s ≠ "") ∧
    (∀ (backend : NVRequest → Except String NVResponse) (s : String),
      (NvidiaProvider.generate nvKey backend prompt opts).1 = Except.ok s →
        s ≠ "") ∧
    (∀ (backend : GemRequest → Except String GemResponse) (s : String),
      (GeminiProvider.generate gmKey backend prompt opts).1 = Except.ok s →
        s ≠ "") ∧
    (OpenRouterProvider.generate orKey orEmptyBackend prompt opts).1 =
      Except.error "OpenRouter error: No response content received" := by
  refine ⟨?_, ?_, ?_, ?_, ?_, ?_, ?_⟩
  · simp [HuggingFaceProvider.generate, h1, hfEmptyBackend]
    intro h0
    exact absurd h0 (by decide)
  · simp [NvidiaProvider.generate, h2, nvEmptyBackend, jsOrStr, jsTrim]
  · simp [GeminiProvider.generate, h3, gmEmptyBackend, jsOrStr, jsTrim]
  · intro backend s hs
    unfold HuggingFaceProvider.generate at hs
    simp only [h1, Bool.not_true, Bool.false_eq_true, if_false] at hs
    cases hb : backend (HuggingFaceProvider.buildRequest prompt opts) with
    | ok resp =>
      rw [hb] at hs
      simp only [Except.ok.injEq] at hs
      intro hE
      subst hE
      split at hs
      · rename 0 < _ => h0
        rw [hs] at h0
        simp at h0
      · simp at hs
    | error e =>
      rw [hb] at hs
      simp at hs
  · intro backend s hs
    unfold NvidiaProvider.generate at hs
    simp only [h2, Bool.not_true, Bool.false_eq_true, if_false] at hs
    cases hb : backend (NvidiaProvider.buildRequest prompt opts) with
    | ok resp =>
      rw [hb] at hs
      simp only [Except.ok.injEq] at hs
      intro hE
      subst hE
      exact jsOrStr_ne_empty _ _ (by decide) hs
    | error e =>
      rw [hb] at hs
      simp at hs
  · intro backend s hs
    unfold GeminiProvider.generate at hs
    simp only [h3, Bool.not_true, Bool.false_eq_true, if_false] at hs
    cases hb : backend (GeminiProvider.buildRequest prompt opts) with
    | ok resp =>
      rw [hb] at hs
      simp only [Except.ok.injEq] at hs
      intro hE
      subst hE
      exact jsOrStr_ne_empty _ _ (by decide) hs
    | error e =>
      rw [hb] at hs
      simp at hs
  · simp [OpenRouterProvider.generate, h4, OpenRouterProvider.tryBody,
      orEmptyBackend, OpenRouterProvider.catchBody, jsOrStr]

/-- Claim C4, witness of the amended theorem at concrete keys and backends. -/
theorem empty_response_sentinel_witness :
    (HuggingFaceProvider.generate "k" hfEmptyBackend "p" ⟨none, none, none⟩).1 =
      Except.ok "No response generated" ∧
    (NvidiaProvider.generate "k" nvEmptyBackend "p" ⟨none, none, none⟩).1 =
      Except.ok "No response generated" ∧
    (GeminiProvider.generate "k" gmEmptyBackend "p" ⟨none, none, none⟩).1 =
      Except.ok "No response generated" ∧
    (OpenRouterProvider.generate "k" orEmptyBackend "p" ⟨none, none, none⟩).1 =
      Except.error "OpenRouter error: No response content received" := by
  have h := empty_response_sentinel "k" "k" "k" "k" "p" ⟨none, none, none⟩
    rfl rfl rfl rfl
  exact ⟨h.1, h.2.1, h.2.2.1, h.2.2.2.2.2.2⟩

/-- Claim C7, confirmed: every adapter re-checks its own availability at the
top of generate and, when unavailable, fails with its key-not-set error with
an empty request list, that is, without reaching the network. -/
theorem adapters_unavailable_no_network
    (hfKey orKey nvKey gmKey : String) (prompt : String) (opts : GenOptions)
    (hfB : HFRequest → Except String HFResponse)
    (orB : ORRequest → Except ORFailure ORResponse)
    (nvB : NVRequest → Except String NVResponse)
    (gmB : GemRequest → Except String GemResponse)
    (h1 : HuggingFaceProvider.isAvailable hfKey = false)
    (h2 : OpenRouterProvider.isAvailable orKey = false)
    (h3 : NvidiaProvider.isAvailable nvKey = false)
    (h4 : GeminiProvider.isAvailable gmKey = false) :
    HuggingFaceProvider.generate hfKey hfB prompt opts =
      (Except.error "HuggingFace API key not set", []) ∧
    OpenRouterProvider.generate orKey orB prompt opts =
      (Except.error "OpenRouter API key not set", []) ∧
    NvidiaProvider.generate nvKey nvB prompt opts =
      (Except.error "NVIDIA API key not set", []) ∧
    GeminiProvider.generate gmKey gmB prompt opts =
      (Except.error "Gemini API key not set", []) := by
  refine ⟨?_, ?_, ?_, ?_⟩
  · simp [HuggingFaceProvider.generate, h1]
  · simp [OpenRouterProvider.generate, h2]
  · simp [NvidiaProvider.generate, h3]
  · simp [GeminiProvider.generate, h4]

/-- Claim C7, witness: an empty key (and for OpenRouter also the explicit
"invalid-key" sentinel) makes each adapter fail without a backend call. -/
theorem adapters_unavailable_no_network_witness :
    HuggingFaceProvider.generate "" hfStub "p" ⟨none, none, none⟩ =
      (Except.error "HuggingFace API key not set", []) ∧
    OpenRouterProvider.generate "invalid-key" orStub "p" ⟨none, none, none⟩ =
      (Except.error "OpenRouter API key not set", []) ∧
    NvidiaProvider.generate "" nvStub "p" ⟨none, none, none⟩ =
      (Except.error "NVIDIA API key not set", []) ∧
    GeminiProvider.generate "" gmStub "p" ⟨none, none, none⟩ =
      (Except.error "Gemini API key not set", []) :=
  adapters_unavailable_no_network "" "invalid-key" "" "" "p" ⟨none, none, none⟩
    hfStub orStub nvStub gmStub rfl (by decide) rfl rfl

/-- Claim C8, counterexample: an explicit but empty model option does not
override the built-in default, because the adapters resolve the model with the
falsy-or operator: with model set to the empty string the OpenRouter request
still carries the built-in default model identifier. -/
theorem empty_model_option_not_overriding :
    (OpenRouterProvider.generate "k" orStub "p" ⟨some "", none, none⟩).2 =
      [{ model := "mistralai/mistral-7b-instruct:free", content := "p",
         temperature := 0.7, max_tokens := 1000 }] ∧
    ("" : String) ≠ "mistralai/mistral-7b-instruct:free" :=
  ⟨rfl, by decide⟩

/-- Claim C8, amended: with options absent every adapter requests temperature
0.7, max output tokens 1000 except HuggingFace which requests 100, and a
non-empty explicit model option overrides the built-in default model
identifier of each adapter. -/
theorem adapter_option_defaults (hfKey orKey nvKey gmKey : String) (prompt : String)
    (hfB : HFRequest → Except String HFResponse)
    (orB : ORRequest → Except ORFailure ORResponse)
    (nvB : NVRequest → Except String NVResponse)
    (gmB : GemRequest → Except String GemResponse)
    (h1 : HuggingFaceProvider.isAvailable hfKey = true)
    (h2 : OpenRouterProvider.isAvailable orKey = true)
    (h3 : NvidiaProvider.isAvailable nvKey = true)
    (h4 : GeminiProvider.isAvailable gmKey = true) :
    (HuggingFaceProvider.generate hfKey hfB prompt ⟨none, none, none⟩).2 =
      [{ model := HuggingFaceProvider.modelName, inputs := prompt,
         max_new_tokens := 100, temperature := 0.7, top_p := 0.95,
         return_full_text := false }] ∧
    (OpenRouterProvider.generate orKey orB prompt ⟨none, none, none⟩).2 =
      [{ model := OpenRouterProvider.modelName, content := prompt,
         temperature := 0.7, max_tokens := 1000 }] ∧
    (NvidiaProvider.generate nvKey nvB prompt ⟨none, none, none⟩).2 =
      [{ model := NvidiaProvider.modelName, content := prompt,
         temperature := 0.7, max_tokens := 1000, top_p := 0.7,
         stream := false }] ∧
    (GeminiProvider.generate gmKey gmB prompt ⟨none, none, none⟩).2 =
      [{ model := GeminiProvider.modelName, text := prompt, temperature := 0.7,
         maxOutputTokens := 1000, topP := 0.95, topK := 64 }] ∧
    (∀ m : String, m ≠ "" →
      (HuggingFaceProvider.generate hfKey hfB prompt ⟨some m, none, none⟩).2 =
        [{ model := m, inputs := prompt, max_new_tokens := 100,
           temperature := 0.7, top_p := 0.95, return_full_text := false }]) ∧
    (∀ m : String, m ≠ "" →
      (OpenRouterProvider.generate orKey orB prompt ⟨some m, none, none⟩).2 =
        [{ model := m, content := prompt, temperature := 0.7,
           max_tokens := 1000 }]) ∧
    (∀ m : String, m ≠ "" →
      (NvidiaProvider.generate nvKey nvB prompt ⟨some m, none, none⟩).2 =
        [{ model := m, content := prompt, temperature := 0.7,
           max_tokens := 1000, top_p := 0.7, stream := false }]) ∧
    (∀ m : String, m ≠ "" →
      (GeminiProvider.generate gmKey gmB prompt ⟨some m, none, none⟩).2 =
        [{ model := m, text := prompt, temperature := 0.7,
           maxOutputTokens := 1000, topP := 0.95, topK := 64 }]) := by
  refine ⟨?_, ?_, ?_, ?_, ?_, ?_, ?_, ?_⟩
  · rw [hf_requests hfKey hfB prompt ⟨none, none, none⟩ h1]
    simp [HuggingFaceProvider.buildRequest, jsOrStr, jsOrNat, jsOrRat]
  · rw [or_requests orKey orB prompt ⟨none, none, none⟩ h2]
    simp [OpenRouterProvider.buildRequest, jsOrStr, jsCoalesceNat, jsCoalesceRat]
  · rw [nv_requests nvKey nvB prompt ⟨none, none, none⟩ h3]
    simp [NvidiaProvider.buildRequest, jsOrStr, jsOrNat, jsOrRat]
  · rw [gm_requests gmKey gmB prompt ⟨none, none, none⟩ h4]
    simp [GeminiProvider.buildRequest, jsOrStr, jsOrNat, jsOrRat]
  · intro m hm
    rw [hf_requests hfKey hfB prompt ⟨some m, none, none⟩ h1]
    simp [HuggingFaceProvider.buildRequest, jsOrStr, jsOrNat, jsOrRat, hm]
  · intro m hm
    rw [or_requests orKey orB prompt ⟨some m, none, none⟩ h2]
    simp [OpenRouterProvider.buildRequest, jsOrStr, jsCoalesceNat, jsCoalesceRat, hm]
  · intro m hm
    rw [nv_requests nvKey nvB prompt ⟨some m, none, none⟩ h3]
    simp [NvidiaProvider.buildRequest, jsOrStr, jsOrNat, jsOrRat, hm]
  · intro m hm
    rw [gm_requests gmKey gmB prompt ⟨some m, none, none⟩ h4]
    simp [GeminiProvider.buildRequest, jsOrStr, jsOrNat, jsOrRat, hm]

/-- Claim C8, witness of the amended theorem at concrete keys, prompt and
model override. -/
theorem adapter_option_defaults_witness :
    (HuggingFaceProvider.generate "k" hfStub "p" ⟨none, none, none⟩).2 =
      [{ model := "mistralai/Mistral-Nemo-Instruct-2407", inputs := "p",
         max_new_tokens := 100, temperature := 0.7, top_p := 0.95,
         return_full_text := false }] ∧
    (OpenRouterProvider.generate "k" orStub "p" ⟨none, none, none⟩).2 =
      [{ model := "mistralai/mistral-7b-instruct:free", content := "p",
         temperature := 0.7, max_tokens := 1000 }] ∧
    (NvidiaProvider.generate "k" nvStub "p" ⟨none, none, none⟩).2 =
      [{ model := "meta/llama-3.3-70b-instruct", content := "p",
         temperature := 0.7, max_tokens := 1000, top_p := 0.7,
         stream := false }] ∧
    (GeminiProvider.generate "k" gmStub "p" ⟨none, none, none⟩).2 =
      [{ model := "gemini-1.5-flash", text := "p", temperature := 0.7,
         maxOutputTokens := 1000, topP := 0.95, topK := 64 }] ∧
    (HuggingFaceProvider.generate "k" hfStub "p" ⟨some "custom-model", none, none⟩).2 =
      [{ model := "custom-model", inputs := "p", max_new_tokens := 100,
         temperature := 0.7, top_p := 0.95, return_full_text := false }] := by
  have h := adapter_option_defaults "k" "k" "k" "k" "p" hfStub orStub nvStub gmStub
    rfl rfl rfl rfl
  exact ⟨h.1, h.2.1, h.2.2.1, h.2.2.2.1,
    h.2.2.2.2.1 "custom-model" (by decide)⟩

/-- Claim C9, confirmed: a backend failure with HTTP status 401 is mapped to
the dedicated authentication message, status 429 to the dedicated rate-limit
message, any other failure to the generic "OpenRouter error: " wrapper, and
the two dedicated messages differ from every generic message and from each
other. -/
theorem openrouter_status_messages (orKey : String) (prompt : String)
    (opts : GenOptions) (h : OpenRouterProvider.isAvailable orKey = true) :
    (∀ msg : String, (OpenRouterProvider.generate orKey
        (fun _ => Except.error { status := some 401, message := msg })
        prompt opts).1 =
      Except.error "OpenRouter authentication failed: Invalid API key") ∧
    (∀ msg : String, (OpenRouterProvider.generate orKey
        (fun _ => Except.error { status := some 429, message := msg })
        prompt opts).1 =
      Except.error "OpenRouter rate limit exceeded") ∧
    (∀ e : ORFailure, e.status = none →
      OpenRouterProvider.catchBody e =
        "OpenRouter error: " ++ jsOrStr (some e.message) "Unknown error") ∧
    (∀ m : String, "OpenRouter authentication failed: Invalid API key" ≠
      "OpenRouter error: " ++ m) ∧
    (∀ m : String, "OpenRouter rate limit exceeded" ≠ "OpenRouter error: " ++ m) ∧
    ("OpenRouter authentication failed: Invalid API key" : String) ≠
      "OpenRouter rate limit exceeded" := by
  refine ⟨?_, ?_, ?_, ?_, ?_, by decide⟩
  · intro msg
    simp [OpenRouterProvider.generate, h, OpenRouterProvider.tryBody,
      OpenRouterProvider.catchBody]
  · intro msg
    simp [OpenRouterProvider.generate, h, OpenRouterProvider.tryBody,
      OpenRouterProvider.catchBody]
  · intro e he
    simp [OpenRouterProvider.catchBody, he]
  · intro m
    exact ne_append_of_take_ne "OpenRouter error: " m _ (by decide)
  · intro m
    exact ne_append_of_take_ne "OpenRouter error: " m _ (by decide)

/-- Claim C9, witness at a concrete key and concrete failing backends. -/
theorem openrouter_status_messages_witness :
    (OpenRouterProvider.generate "k" or401Backend "p" ⟨none, none, none⟩).1 =
      Except.error "OpenRouter authentication failed: Invalid API key" ∧
    (OpenRouterProvider.generate "k" or429Backend "p" ⟨none, none, none⟩).1 =
      Except.error "OpenRouter rate limit exceeded" := by
  have h := openrouter_status_messages "k" "p" ⟨none, none, none⟩ (by decide)
  exact ⟨h.1 "auth fail", h.2.1 "too many"⟩

/-- Claim C10, confirmed: a caller-supplied temperature of 0 or max_tokens of
0 is silently replaced by the defaults in the HuggingFace, NVIDIA and Gemini
requests (falsy-or defaulting), while the OpenRouter request honours the
explicit zeroes (nullish coalescing). -/
theorem falsy_zero_options_replaced (hfKey orKey nvKey gmKey : String)
    (prompt : String)
    (hfB : HFRequest → Except String HFResponse)
    (orB : ORRequest → Except ORFailure ORResponse)
    (nvB : NVRequest → Except String NVResponse)
    (gmB : GemRequest → Except String GemResponse)
    (h1 : HuggingFaceProvider.isAvailable hfKey = true)
    (h2 : OpenRouterProvider.isAvailable orKey = true)
    (h3 : NvidiaProvider.isAvailable nvKey = true)
    (h4 : GeminiProvider.isAvailable gmKey = true) :
    (HuggingFaceProvider.generate hfKey hfB prompt ⟨none, some 0, some 0⟩).2 =
      [{ model := HuggingFaceProvider.modelName, inputs := prompt,
         max_new_tokens := 100, temperature := 0.7, top_p := 0.95,
         return_full_text := false }] ∧
    (NvidiaProvider.generate nvKey nvB prompt ⟨none, some 0, some 0⟩).2 =
      [{ model := NvidiaProvider.modelName, content := prompt,
         temperature := 0.7, max_tokens := 1000, top_p := 0.7,
         stream := false }] ∧
    (GeminiProvider.generate gmKey gmB prompt ⟨none, some 0, some 0⟩).2 =
      [{ model := GeminiProvider.modelName, text := prompt, temperature := 0.7,
         maxOutputTokens := 1000, topP := 0.95, topK := 64 }] ∧
    (OpenRouterProvider.generate orKey orB prompt ⟨none, some 0, some 0⟩).2 =
      [{ model := OpenRouterProvider.modelName, content := prompt,
         temperature := 0, max_tokens := 0 }] := by
  refine ⟨?_, ?_, ?_, ?_⟩
  · rw [hf_requests hfKey hfB prompt ⟨none, some 0, some 0⟩ h1]
    simp [HuggingFaceProvider.buildRequest, jsOrStr, jsOrNat, jsOrRat]
  · rw [nv_requests nvKey nvB prompt ⟨none, some 0, some 0⟩ h3]
    simp [NvidiaProvider.buildRequest, jsOrStr, jsOrNat, jsOrRat]
  · rw [gm_requests gmKey gmB prompt ⟨none, some 0, some 0⟩ h4]
    simp [GeminiProvider.buildRequest, jsOrStr, jsOrNat, jsOrRat]
  · rw [or_requests orKey orB prompt ⟨none, some 0, some 0⟩ h2]
    simp [OpenRouterProvider.buildRequest, jsOrStr, jsCoalesceNat, jsCoalesceRat]

/-- Claim C10, witness at a concrete key, prompt and explicit zero options. -/
theorem falsy_zero_options_replaced_witness :
    (HuggingFaceProvider.generate "k" hfStub "p" ⟨none, some 0, some 0⟩).2 =
      [{ model := "mistralai/Mistral-Nemo-Instruct-2407", inputs := "p",
         max_new_tokens := 100, temperature := 0.7, top_p := 0.95,
         return_full_text := false }] ∧
    (NvidiaProvider.generate "k" nvStub "p" ⟨none, some 0, some 0⟩).2 =
      [{ model := "meta/llama-3.3-70b-instruct", content := "p",
         temperature := 0.7, max_tokens := 1000, top_p := 0.7,
         stream := false }] ∧
    (GeminiProvider.generate "k" gmStub "p" ⟨none, some 0, some 0⟩).2 =
      [{ model := "gemini-1.5-flash", text := "p", temperature := 0.7,
         maxOutputTokens := 1000, topP := 0.95, topK := 64 }] ∧
    (OpenRouterProvider.generate "k" orStub "p" ⟨none, some 0, some 0⟩).2 =
      [{ model := "mistralai/mistral-7b-instruct:free", content := "p",
         temperature := 0, max_tokens := 0 }] :=
  falsy_zero_options_replaced "k" "k" "k" "k" "p" hfStub orStub nvStub gmStub
    rfl rfl rfl rfl

end LLMFallback
